import Mathlib

/-!
Shallow embedding of the doodle-jump-game repository (src/src/Player.js and the
GameScene file src/unnamed/part_000) used to check the specification's claims.

Conventions of the embedding:
* JavaScript numbers used only for ordering/arithmetic on coordinates and
  velocities are modelled as rationals (ℚ); timestamps and durations
  (milliseconds compared with subtraction and `>`) are modelled as integers.
* The one place where JavaScript NaN semantics matters — `Player.handleMovement`
  reads `this.characterScale`, a property that is never assigned anywhere in the
  repository, so the arithmetic produces NaN — is modelled by the type `JNum`
  (a rational or NaN) with JS comparison semantics (any comparison with NaN is
  false).
* Engine side effects (sound playback, animation playback, scene launch) are
  modelled by the state flags the code keeps for them; `die`'s launch of the
  game-over scene is modelled as a returned event flag.
* Euclidean-distance comparisons (`Phaser.Math.Distance.Between(..) < 60`) are
  modelled by the equivalent squared-distance comparison `distSq < 3600`
  (the square root is strictly monotone on nonnegative inputs).
-/

namespace Doodle

/-- The player's current power-up animation/movement state
(`this.currentPowerupState` in Player.js: "normal", "jetpack", "springshoes",
"propellerhat"). -/
inductive PState where
  | normal
  | propellerhat
  | jetpack
  | springshoes
deriving DecidableEq

/-- Power-up type tags passed to `collectPowerup` ('propeller_hat', 'jetpack',
'spring_shoes'). -/
inductive PowerupType where
  | propeller_hat
  | jetpack
  | spring_shoes
deriving DecidableEq

/-- Animation keys the player can play (Player.js createAnimations). -/
inductive AnimKey where
  | idle
  | shooting
  | jetpack
  | springshoes
  | propellerhat
deriving DecidableEq

/-- Facing direction ("left"/"right"). -/
inductive Dir where
  | left
  | right
deriving DecidableEq

/-- A JavaScript number that is either an actual (rational) value or NaN.
Needed because Player.js handleMovement computes with the never-assigned
property `this.characterScale` (undefined), whose arithmetic yields NaN. -/
inductive JNum where
  | nan
  | val (q : ℚ)
deriving DecidableEq

/-- JS multiplication: NaN is absorbing. -/
def JNum.mul : JNum → JNum → JNum
  | JNum.val a, JNum.val b => JNum.val (a * b)
  | _, _ => JNum.nan

/-- JS division: NaN is absorbing (division by zero never occurs in the
modelled code: the only divisor is the literal 2). -/
def JNum.div : JNum → JNum → JNum
  | JNum.val a, JNum.val b => JNum.val (a / b)
  | _, _ => JNum.nan

/-- JS subtraction: NaN is absorbing. -/
def JNum.sub : JNum → JNum → JNum
  | JNum.val a, JNum.val b => JNum.val (a - b)
  | _, _ => JNum.nan

/-- JS `<` comparison: any comparison involving NaN is false. -/
def JNum.ltb : JNum → JNum → Bool
  | JNum.val a, JNum.val b => decide (a < b)
  | _, _ => false

/-- Keyboard/touch cursor state consumed by Player.update. -/
structure Cursors where
  leftDown : Bool
  rightDown : Bool
  upDown : Bool
  spaceDown : Bool
deriving DecidableEq

/-- The player state: the fields of the `Player` sprite in Player.js that the
modelled methods read or write. `x` is a `JNum` because the horizontal clamp
in handleMovement computes with NaN; all other coordinates stay rational. -/
structure Player where
  isDead : Bool
  x : JNum
  y : ℚ
  vx : ℚ
  vy : ℚ
  width : ℚ
  facingDirection : Dir
  moveSpeed : ℚ
  jumpPower : ℚ
  hasJetpack : Bool
  jetpackStartTime : ℤ
  jetpackDuration : ℤ
  jetpackPower : ℚ
  hasSpringShoes : Bool
  springShoesStartTime : ℤ
  springShoesDuration : ℤ
  springShoesMultiplier : ℚ
  hasPropellerHat : Bool
  propellerHatStartTime : ℤ
  propellerHatDuration : ℤ
  propellerHatPower : ℚ
  currentPowerupState : PState
  isShooting : Bool
  currentAnimKey : AnimKey
  jetpackSoundPlaying : Bool
  propellerSoundPlaying : Bool
deriving DecidableEq

/-- Player.js playJetpackSound: starts the looped sound only if it is not
already playing (tracked by the `jetpackSoundPlaying` flag). -/
def playJetpackSound (p : Player) : Player :=
  if p.jetpackSoundPlaying then p else { p with jetpackSoundPlaying := true }

/-- Player.js stopJetpackSound. -/
def stopJetpackSound (p : Player) : Player :=
  if p.jetpackSoundPlaying then { p with jetpackSoundPlaying := false } else p

/-- Player.js playPropellerSound. -/
def playPropellerSound (p : Player) : Player :=
  if p.propellerSoundPlaying then p else { p with propellerSoundPlaying := true }

/-- Player.js stopPropellerSound. -/
def stopPropellerSound (p : Player) : Player :=
  if p.propellerSoundPlaying then { p with propellerSoundPlaying := false } else p

/-- The animation key chosen for a power-up state (the switch shared by
forceUpdateAnimation and updateAnimations in Player.js). -/
def animKeyFor : PState → AnimKey
  | PState.propellerhat => AnimKey.propellerhat
  | PState.jetpack => AnimKey.jetpack
  | PState.springshoes => AnimKey.springshoes
  | PState.normal => AnimKey.idle

/-- Player.js forceUpdateAnimation: while shooting it leaves the animation
alone; otherwise it plays the animation for the current power-up state. -/
def forceUpdateAnimation (p : Player) : Player :=
  if p.isShooting then p
  else { p with currentAnimKey := animKeyFor p.currentPowerupState }

/-- The propeller-hat block of Player.js updatePowerupStates (highest
priority): on expiry clear the flag and stop the propeller sound; otherwise
the new state is propellerhat and the propeller sound plays. The pair carries
the player and the `newPowerupState` local. -/
def checkPropellerHat (now : ℤ) (p : Player) : Player × PState :=
  if p.hasPropellerHat then
    if now - p.propellerHatStartTime > p.propellerHatDuration then
      (stopPropellerSound { p with hasPropellerHat := false }, PState.normal)
    else
      (playPropellerSound p, PState.propellerhat)
  else (p, PState.normal)

/-- The jetpack block of updatePowerupStates (second priority): only checked
while `newPowerupState` is still "normal"; on expiry clear the flag and stop
the jetpack sound, otherwise the new state is jetpack. -/
def checkJetpack (now : ℤ) (ps : Player × PState) : Player × PState :=
  if ps.1.hasJetpack ∧ ps.2 = PState.normal then
    if now - ps.1.jetpackStartTime > ps.1.jetpackDuration then
      (stopJetpackSound { ps.1 with hasJetpack := false }, ps.2)
    else
      (ps.1, PState.jetpack)
  else ps

/-- The spring-shoes block of updatePowerupStates (lowest priority): only
checked while `newPowerupState` is still "normal". -/
def checkSpringShoes (now : ℤ) (ps : Player × PState) : Player × PState :=
  if ps.1.hasSpringShoes ∧ ps.2 = PState.normal then
    if now - ps.1.springShoesStartTime > ps.1.springShoesDuration then
      ({ ps.1 with hasSpringShoes := false }, ps.2)
    else
      (ps.1, PState.springshoes)
  else ps

/-- The "stop unrelated sound effects" block of updatePowerupStates. -/
def stopUnrelatedSounds (ps : Player × PState) : Player × PState :=
  let p4 := if ps.2 ≠ PState.jetpack then stopJetpackSound ps.1 else ps.1
  let p5 := if ps.2 ≠ PState.propellerhat then stopPropellerSound p4 else p4
  (p5, ps.2)

/-- The final block of updatePowerupStates: if the animation state changed,
store it and force-update the animation immediately. -/
def commitPowerupState (ps : Player × PState) : Player :=
  if ps.1.currentPowerupState ≠ ps.2 then
    forceUpdateAnimation { ps.1 with currentPowerupState := ps.2 }
  else ps.1

/-- Player.js updatePowerupStates: the blocks above in source order. -/
def updatePowerupStates (now : ℤ) (p : Player) : Player :=
  commitPowerupState
    (stopUnrelatedSounds (checkSpringShoes now (checkJetpack now (checkPropellerHat now p))))

/-- Player.js collectPowerup: sets the collected buff's flag and start time,
switches the animation state unless a higher-priority buff is held, then
immediately force-updates the animation. -/
def collectPowerup (now : ℤ) (t : PowerupType) (p : Player) : Player :=
  let p1 : Player :=
    match t with
    | PowerupType.propeller_hat =>
        { p with hasPropellerHat := true, propellerHatStartTime := now,
                 currentPowerupState := PState.propellerhat }
    | PowerupType.jetpack =>
        let q := { p with hasJetpack := true, jetpackStartTime := now }
        if ¬q.hasPropellerHat then { q with currentPowerupState := PState.jetpack }
        else q
    | PowerupType.spring_shoes =>
        let q := { p with hasSpringShoes := true, springShoesStartTime := now }
        if ¬q.hasPropellerHat ∧ ¬q.hasJetpack then
          { q with currentPowerupState := PState.springshoes }
        else q
  forceUpdateAnimation p1

/-- Player.js jump: `velocityY || -this.jumpPower` (JS `||`: null and 0 are
falsy, so those fall back to the negative jump power), multiplied by the
spring-shoes multiplier when that buff is held. -/
def Player.jump (velocityY : Option ℚ) (p : Player) : Player :=
  let jumpVelocity : ℚ :=
    match velocityY with
    | some v => if v = 0 then -p.jumpPower else v
    | none => -p.jumpPower
  let multiplier : ℚ := if p.hasSpringShoes then p.springShoesMultiplier else 1
  { p with vy := jumpVelocity * multiplier }

/-- The value of `this.characterScale` read by Player.js handleMovement: the
property is never assigned anywhere in the repository, so reading it yields
JavaScript undefined, and the arithmetic `this.width * this.characterScale / 2`
yields NaN. -/
def characterScaleJS : JNum := JNum.nan

/-- Player.js handleMovement: horizontal velocity from the cursors, facing
direction, the propeller-hat/jetpack vertical overrides, then the screen
boundary clamp computed from `halfWidth = width * characterScale / 2`. -/
def handleMovement (screenWidth : ℚ) (c : Cursors) (p : Player) : Player :=
  let p1 : Player :=
    if c.leftDown then { p with vx := -p.moveSpeed, facingDirection := Dir.left }
    else if c.rightDown then { p with vx := p.moveSpeed, facingDirection := Dir.right }
    else { p with vx := 0 }
  let p2 : Player :=
    if p1.hasPropellerHat then { p1 with vy := -p1.propellerHatPower }
    else if p1.hasJetpack && (c.upDown || c.spaceDown) then
      playJetpackSound { p1 with vy := -p1.jetpackPower }
    else p1
  let halfWidth : JNum := JNum.div (JNum.mul (JNum.val p2.width) characterScaleJS) (JNum.val 2)
  if JNum.ltb p2.x halfWidth then
    { p2 with x := halfWidth, vx := 0 }
  else if JNum.ltb (JNum.sub (JNum.val screenWidth) halfWidth) p2.x then
    { p2 with x := JNum.sub (JNum.val screenWidth) halfWidth, vx := 0 }
  else p2

/-- Player.js die: a guarded one-way transition. The returned flag records
whether this call launched the game-over scene. -/
def Player.die (p : Player) : Player × Bool :=
  if p.isDead then (p, false)
  else ({ p with isDead := true, vx := 0, vy := 0 }, true)

/-- Repeated calls to die, counting how many of them launched the game-over
scene. -/
def dieCalls : ℕ → Player → Player × ℕ
  | 0, p => (p, 0)
  | n + 1, p =>
      let r := Player.die p
      let rest := dieCalls n r.1
      (rest.1, (if r.2 then 1 else 0) + rest.2)

/-- The active flag of a given buff. -/
def buffFlag : PowerupType → Player → Bool
  | PowerupType.propeller_hat, p => p.hasPropellerHat
  | PowerupType.jetpack, p => p.hasJetpack
  | PowerupType.spring_shoes, p => p.hasSpringShoes

/-- The start time of a given buff. -/
def buffStartTime : PowerupType → Player → ℤ
  | PowerupType.propeller_hat, p => p.propellerHatStartTime
  | PowerupType.jetpack, p => p.jetpackStartTime
  | PowerupType.spring_shoes, p => p.springShoesStartTime

/-- The dominant power-up state determined by the buff flags alone, in the
fixed priority order propeller hat > jetpack > spring shoes, as enforced by
the guards in collectPowerup. -/
def dominantOfFlags (p : Player) : PState :=
  if p.hasPropellerHat then PState.propellerhat
  else if p.hasJetpack then PState.jetpack
  else if p.hasSpringShoes then PState.springshoes
  else PState.normal

/-- A platform in the scene: its position and Phaser active flag (the platform
kind drawn from Platform.getRandomPlatformType does not enter any modelled
decision and is omitted). -/
structure Platform where
  x : ℚ
  y : ℚ
  active : Bool
deriving DecidableEq

/-- An enemy: position and remaining hit points. Modelled from the spec:
Enemy.js is not under src; the spec describes enemies that register damage
from hits and are defeated when the damage suffices. -/
structure Enemy where
  x : ℚ
  y : ℚ
  health : ℕ
deriving DecidableEq

/-- A power-up entity in the scene. -/
structure Powerup where
  x : ℚ
  y : ℚ
  ptype : PowerupType
deriving DecidableEq

/-- A bullet: its vertical position and Phaser active flag (destroy clears
the flag and removes it). -/
structure Bullet where
  y : ℚ
  active : Bool
deriving DecidableEq

/-- The GameScene state touched by the modelled methods: score, the height
counter highestY, the generation cursor lastPlatformY, and the entity groups. -/
structure Scene where
  score : ℤ
  highestY : ℤ
  lastPlatformY : ℚ
  platforms : List Platform
  enemies : List Enemy
  powerups : List Powerup
  bullets : List Bullet
deriving DecidableEq

/-- Squared Euclidean distance. `Phaser.Math.Distance.Between(x1,y1,x2,y2) < 60`
is equivalent to `distSq x1 y1 x2 y2 < 3600` because the square root is
strictly monotone on nonnegative inputs. -/
def distSq (x1 y1 x2 y2 : ℚ) : ℚ :=
  (x2 - x1) * (x2 - x1) + (y2 - y1) * (y2 - y1)

/-- The overlap check of generateNewPlatforms: some active platform lies at
distance < 60 from the candidate position. -/
def overlapsAny (x y : ℚ) (plats : List Platform) : Bool :=
  plats.any fun pl => pl.active && decide (distSq x y pl.x pl.y < 3600)

/-- The reject-and-retry while loop of generateNewPlatforms. `fuel` is the
number of attempts remaining (10 minus the attempts already made); each
attempt first decrements the cursor by the platform spacing, then draws an x
(the `draws` stream indexed by the attempt counter) and accepts unless the
candidate overlaps an active platform. Returns the final cursor value and the
accepted position, if any. -/
def placeLoop (spacing : ℚ) (plats : List Platform) (draws : ℕ → ℚ) :
    ℕ → ℕ → ℚ → ℚ × Option (ℚ × ℚ)
  | _, 0, lastY => (lastY, none)
  | attempt, fuel + 1, lastY =>
      let newY := lastY - spacing
      let x := draws attempt
      if overlapsAny x newY plats then
        placeLoop spacing plats draws (attempt + 1) fuel newY
      else
        (newY, some (x, newY))

/-- The random draws one call to generateNewPlatforms may consume: the x draws
for the placement attempts (Phaser.Math.Between(80, width-80)), the enemy
spawn roll (Phaser.Math.Between(1,100)) and enemy x, and the power-up type
selector result (Powerup.getRandomPowerupType, modelled from the spec as a
weighted-or-none draw since Powerup.js is not under src) and power-up x. -/
structure GenDraws where
  xs : ℕ → ℚ
  enemyRoll : ℕ
  enemyX : ℚ
  powerupDraw : Option PowerupType
  powerupX : ℚ
  enemyHealth : ℕ

/-- GameScene.updateScore. -/
def updateScore (points : ℤ) (s : Scene) : Scene :=
  { s with score := s.score + points }

/-- GameScene.generateNewPlatforms: when the cursor is above the generation
threshold (cameraTop - 200), run the placement loop (at most 10 attempts, the
cursor advancing on every attempt); on success create the platform, possibly
an enemy (roll ≤ spawn chance, at (enemyX, newY-80)), and possibly a power-up
(at (powerupX, newY-60)); on failure only the cursor has moved. -/
def generateNewPlatforms (spacing : ℚ) (spawnChance : ℕ) (cameraTop : ℚ)
    (d : GenDraws) (s : Scene) : Scene :=
  if s.lastPlatformY > cameraTop - 200 then
    let r := placeLoop spacing s.platforms d.xs 0 10 s.lastPlatformY
    match r.2 with
    | none => { s with lastPlatformY := r.1 }
    | some (x, newY) =>
        let s1 := { s with lastPlatformY := r.1,
                           platforms := s.platforms ++ [⟨x, newY, true⟩] }
        let s2 :=
          if d.enemyRoll ≤ spawnChance then
            { s1 with enemies := s1.enemies ++ [⟨d.enemyX, newY - 80, d.enemyHealth⟩] }
          else s1
        match d.powerupDraw with
        | some t => { s2 with powerups := s2.powerups ++ [⟨d.powerupX, newY - 60, t⟩] }
        | none => s2
  else s

/-- GameScene.updateHeight: the derived height is
`max 0 ⌊(screenHeight - player.y) / 10⌋`; when it beats the record, store it
and award the configured score multiplier (its numeric value lives in the
gameConfig.json file, which is not under src, so it is a parameter here). -/
def updateHeight (screenH : ℚ) (scoreMult : ℤ) (playerY : ℚ) (s : Scene) : Scene :=
  let currentHeight : ℤ := max 0 ⌊(screenH - playerY) / 10⌋
  if currentHeight > s.highestY then
    updateScore scoreMult { s with highestY := currentHeight }
  else s

/-- The scoring collision events of setupCollisions, with their fixed point
values: stomp = 100, power-up collection = 200, bullet kill = 150. -/
inductive ScoreEvent where
  | stomp
  | powerupCollect
  | bulletKill
deriving DecidableEq

/-- Apply one scoring event via updateScore, with the constant from
setupCollisions. -/
def applyScoreEvent (s : Scene) : ScoreEvent → Scene
  | ScoreEvent.stomp => updateScore 100 s
  | ScoreEvent.powerupCollect => updateScore 200 s
  | ScoreEvent.bulletKill => updateScore 150 s

/-- One tick's effect on the score/height counters: the player's y this tick
and the scoring collision events the engine delivered. -/
def gameTick (screenH : ℚ) (scoreMult : ℤ) (t : ℚ × List ScoreEvent) (s : Scene) : Scene :=
  t.2.foldl applyScoreEvent (updateHeight screenH scoreMult t.1 s)

/-- A sequence of ticks. -/
def runTicks (screenH : ℚ) (scoreMult : ℤ) : List (ℚ × List ScoreEvent) → Scene → Scene
  | [], s => s
  | t :: rest, s => runTicks screenH scoreMult rest (gameTick screenH scoreMult t s)

/-- GameScene.cleanupOffScreenObjects: the local `cameraBottom` is
`scrollY + camera.height + 300`; platforms, enemies and power-ups with
`y > cameraBottom` are destroyed; bullets additionally die when
`y < scrollY - 100`. -/
def cleanupOffScreenObjects (scrollY camH : ℚ) (s : Scene) : Scene :=
  let cameraBottom := scrollY + camH + 300
  { s with
    platforms := s.platforms.filter fun pl => !decide (pl.y > cameraBottom),
    enemies := s.enemies.filter fun e => !decide (e.y > cameraBottom),
    powerups := s.powerups.filter fun pw => !decide (pw.y > cameraBottom),
    bullets := s.bullets.filter fun b =>
      !(decide (b.y < scrollY - 100) || decide (b.y > cameraBottom)) }

/-- Modelled from the spec: Platform.js is not under src. Per the spec, the
landing handler "resets player's vertical velocity to a jump impulse (landing
bounce)", i.e. onPlayerLand invokes the player's jump (no explicit velocity). -/
def Platform.onPlayerLand (p : Player) : Player :=
  Player.jump none p

/-- The player-platform overlap callback of setupCollisions: land only when
the player is moving downward and is above the platform. -/
def playerPlatformOverlapHandler (p : Player) (pl : Platform) : Player :=
  if p.vy > 0 ∧ p.y < pl.y then Platform.onPlayerLand p else p

/-- Modelled from the spec: Enemy.js is not under src. Per the spec, a bullet
hit makes the enemy "register damage; if defeated, destroy bullet and award
points": hitByBullet registers one point of damage on a live enemy and
reports whether that defeated it (no hit registers on an already-defeated
enemy). -/
def Enemy.hitByBullet (e : Enemy) : Enemy × Bool :=
  if e.health = 0 then (e, false)
  else ({ e with health := e.health - 1 }, decide (e.health - 1 = 0))

/-- The bullet-enemy overlap callback of setupCollisions: when hitByBullet
reports a defeat, destroy the bullet and add 150 to the score. -/
def bulletEnemyOverlapHandler (b : Bullet) (e : Enemy) (score : ℤ) :
    Bullet × Enemy × ℤ :=
  let r := Enemy.hitByBullet e
  if r.2 then ({ b with active := false }, r.1, score + 150)
  else (b, r.1, score)

/-- A concrete player in the initial configuration of the Player constructor:
alive, no buffs, normal state, with representative config values. -/
def basePlayer : Player where
  isDead := false
  x := JNum.val 200
  y := 100
  vx := 0
  vy := 0
  width := 488
  facingDirection := Dir.right
  moveSpeed := 300
  jumpPower := 550
  hasJetpack := false
  jetpackStartTime := 0
  jetpackDuration := 5000
  jetpackPower := 400
  hasSpringShoes := false
  springShoesStartTime := 0
  springShoesDuration := 8000
  springShoesMultiplier := 2
  hasPropellerHat := false
  propellerHatStartTime := 0
  propellerHatDuration := 6000
  propellerHatPower := 350
  currentPowerupState := PState.normal
  isShooting := false
  currentAnimKey := AnimKey.idle
  jetpackSoundPlaying := false
  propellerSoundPlaying := false

/-- A player holding an unexpired propeller hat together with a jetpack whose
duration has already elapsed. -/
def cHatJet : Player :=
  { basePlayer with
    hasPropellerHat := true, propellerHatStartTime := 0, propellerHatDuration := 100,
    hasJetpack := true, jetpackStartTime := 0, jetpackDuration := 10,
    currentPowerupState := PState.propellerhat }

/-- The player of end-to-end scenario 1: at y = 100, falling with vy = +50. -/
def scenario1Player : Player :=
  { basePlayer with y := 100, vy := 50 }

/-- Cursor state with nothing pressed. -/
def idleCursors : Cursors := ⟨false, false, false, false⟩

/-- An active platform used by the distance-exactly-60 acceptance example. -/
def c3Platform : Platform := ⟨80, 100, true⟩

/-- Ten active platforms sitting exactly on the ten candidate positions of a
generation request that starts from cursor 1000 with spacing 100 and constant
x-draw 80. -/
def c4Platforms : List Platform :=
  [⟨80, 900, true⟩, ⟨80, 800, true⟩, ⟨80, 700, true⟩, ⟨80, 600, true⟩,
   ⟨80, 500, true⟩, ⟨80, 400, true⟩, ⟨80, 300, true⟩, ⟨80, 200, true⟩,
   ⟨80, 100, true⟩, ⟨80, 0, true⟩]

/-- A scene whose next generation request will have all ten placement attempts
rejected. -/
def c4Scene : Scene := ⟨0, 0, 1000, c4Platforms, [], [], []⟩

/-- Draw stream for that generation request: every x-draw is 80. -/
def c4Draws : GenDraws := ⟨fun _ => 80, 100, 100, none, 100, 1⟩

/-- An initial scene for the counter-monotonicity run. -/
def c5Scene : Scene := ⟨0, 0, 550, [], [], [], []⟩

/- Helper lemmas about the sound-flag functions and forceUpdateAnimation,
used to push record projections through the player-updating functions. -/

theorem playPropellerSound_eq (p : Player) :
    playPropellerSound p = { p with propellerSoundPlaying := true } := by
  unfold playPropellerSound
  split
  · next h => cases p; simp_all
  · rfl

theorem stopPropellerSound_eq (p : Player) :
    stopPropellerSound p = { p with propellerSoundPlaying := false } := by
  unfold stopPropellerSound
  split
  · rfl
  · next h => cases p; simp_all

theorem playJetpackSound_eq (p : Player) :
    playJetpackSound p = { p with jetpackSoundPlaying := true } := by
  unfold playJetpackSound
  split
  · next h => cases p; simp_all
  · rfl

theorem stopJetpackSound_eq (p : Player) :
    stopJetpackSound p = { p with jetpackSoundPlaying := false } := by
  unfold stopJetpackSound
  split
  · rfl
  · next h => cases p; simp_all

theorem forceUpdateAnimation_state (p : Player) :
    (forceUpdateAnimation p).currentPowerupState = p.currentPowerupState := by
  unfold forceUpdateAnimation; split <;> rfl

theorem forceUpdateAnimation_hasPropellerHat (p : Player) :
    (forceUpdateAnimation p).hasPropellerHat = p.hasPropellerHat := by
  unfold forceUpdateAnimation; split <;> rfl

theorem forceUpdateAnimation_hasJetpack (p : Player) :
    (forceUpdateAnimation p).hasJetpack = p.hasJetpack := by
  unfold forceUpdateAnimation; split <;> rfl

theorem forceUpdateAnimation_hasSpringShoes (p : Player) :
    (forceUpdateAnimation p).hasSpringShoes = p.hasSpringShoes := by
  unfold forceUpdateAnimation; split <;> rfl

theorem forceUpdateAnimation_propStart (p : Player) :
    (forceUpdateAnimation p).propellerHatStartTime = p.propellerHatStartTime := by
  unfold forceUpdateAnimation; split <;> rfl

theorem forceUpdateAnimation_jetStart (p : Player) :
    (forceUpdateAnimation p).jetpackStartTime = p.jetpackStartTime := by
  unfold forceUpdateAnimation; split <;> rfl

theorem forceUpdateAnimation_springStart (p : Player) :
    (forceUpdateAnimation p).springShoesStartTime = p.springShoesStartTime := by
  unfold forceUpdateAnimation; split <;> rfl

/- Projection lemmas for the blocks of updatePowerupStates. -/

theorem cps_snd (now : ℤ) (p : Player) :
    (checkPropellerHat now p).2 =
      if p.hasPropellerHat = true ∧ ¬(now - p.propellerHatStartTime > p.propellerHatDuration)
      then PState.propellerhat else PState.normal := by
  unfold checkPropellerHat
  split_ifs <;> simp_all

theorem cps_fst_hat (now : ℤ) (p : Player) :
    ((checkPropellerHat now p).1.hasPropellerHat = true ↔
      p.hasPropellerHat = true ∧ ¬(now - p.propellerHatStartTime > p.propellerHatDuration)) := by
  unfold checkPropellerHat
  split_ifs <;> simp_all [stopPropellerSound_eq, playPropellerSound_eq]

theorem cps_fst_jet (now : ℤ) (p : Player) :
    (checkPropellerHat now p).1.hasJetpack = p.hasJetpack := by
  unfold checkPropellerHat
  split_ifs <;> simp [stopPropellerSound_eq, playPropellerSound_eq]

theorem cps_fst_spring (now : ℤ) (p : Player) :
    (checkPropellerHat now p).1.hasSpringShoes = p.hasSpringShoes := by
  unfold checkPropellerHat
  split_ifs <;> simp [stopPropellerSound_eq, playPropellerSound_eq]

theorem cps_fst_jetStart (now : ℤ) (p : Player) :
    (checkPropellerHat now p).1.jetpackStartTime = p.jetpackStartTime := by
  unfold checkPropellerHat
  split_ifs <;> simp [stopPropellerSound_eq, playPropellerSound_eq]

theorem cps_fst_jetDur (now : ℤ) (p : Player) :
    (checkPropellerHat now p).1.jetpackDuration = p.jetpackDuration := by
  unfold checkPropellerHat
  split_ifs <;> simp [stopPropellerSound_eq, playPropellerSound_eq]

theorem cps_fst_springStart (now : ℤ) (p : Player) :
    (checkPropellerHat now p).1.springShoesStartTime = p.springShoesStartTime := by
  unfold checkPropellerHat
  split_ifs <;> simp [stopPropellerSound_eq, playPropellerSound_eq]

theorem cps_fst_springDur (now : ℤ) (p : Player) :
    (checkPropellerHat now p).1.springShoesDuration = p.springShoesDuration := by
  unfold checkPropellerHat
  split_ifs <;> simp [stopPropellerSound_eq, playPropellerSound_eq]

theorem cj_snd (now : ℤ) (ps : Player × PState) :
    (checkJetpack now ps).2 =
      if ps.1.hasJetpack = true ∧ ps.2 = PState.normal ∧
          ¬(now - ps.1.jetpackStartTime > ps.1.jetpackDuration)
      then PState.jetpack else ps.2 := by
  unfold checkJetpack
  split_ifs <;> simp_all

theorem cj_fst_jet (now : ℤ) (ps : Player × PState) :
    ((checkJetpack now ps).1.hasJetpack = true ↔
      ps.1.hasJetpack = true ∧
        (¬ps.2 = PState.normal ∨ ¬(now - ps.1.jetpackStartTime > ps.1.jetpackDuration))) := by
  unfold checkJetpack
  split_ifs <;> simp_all [stopJetpackSound_eq]

theorem cj_fst_hat (now : ℤ) (ps : Player × PState) :
    (checkJetpack now ps).1.hasPropellerHat = ps.1.hasPropellerHat := by
  unfold checkJetpack
  split_ifs <;> simp [stopJetpackSound_eq]

theorem cj_fst_spring (now : ℤ) (ps : Player × PState) :
    (checkJetpack now ps).1.hasSpringShoes = ps.1.hasSpringShoes := by
  unfold checkJetpack
  split_ifs <;> simp [stopJetpackSound_eq]

theorem cj_fst_springStart (now : ℤ) (ps : Player × PState) :
    (checkJetpack now ps).1.springShoesStartTime = ps.1.springShoesStartTime := by
  unfold checkJetpack
  split_ifs <;> simp [stopJetpackSound_eq]

theorem cj_fst_springDur (now : ℤ) (ps : Player × PState) :
    (checkJetpack now ps).1.springShoesDuration = ps.1.springShoesDuration := by
  unfold checkJetpack
  split_ifs <;> simp [stopJetpackSound_eq]

theorem css_snd (now : ℤ) (ps : Player × PState) :
    (checkSpringShoes now ps).2 =
      if ps.1.hasSpringShoes = true ∧ ps.2 = PState.normal ∧
          ¬(now - ps.1.springShoesStartTime > ps.1.springShoesDuration)
      then PState.springshoes else ps.2 := by
  unfold checkSpringShoes
  split_ifs <;> simp_all

theorem css_fst_spring (now : ℤ) (ps : Player × PState) :
    ((checkSpringShoes now ps).1.hasSpringShoes = true ↔
      ps.1.hasSpringShoes = true ∧
        (¬ps.2 = PState.normal ∨ ¬(now - ps.1.springShoesStartTime > ps.1.springShoesDuration))) := by
  unfold checkSpringShoes
  split_ifs <;> simp_all

theorem css_fst_hat (now : ℤ) (ps : Player × PState) :
    (checkSpringShoes now ps).1.hasPropellerHat = ps.1.hasPropellerHat := by
  unfold checkSpringShoes
  split_ifs <;> simp

theorem css_fst_jet (now : ℤ) (ps : Player × PState) :
    (checkSpringShoes now ps).1.hasJetpack = ps.1.hasJetpack := by
  unfold checkSpringShoes
  split_ifs <;> simp

theorem stop_snd (ps : Player × PState) : (stopUnrelatedSounds ps).2 = ps.2 := rfl

theorem stop_fst_hat (ps : Player × PState) :
    (stopUnrelatedSounds ps).1.hasPropellerHat = ps.1.hasPropellerHat := by
  unfold stopUnrelatedSounds
  split_ifs <;> simp [stopJetpackSound_eq, stopPropellerSound_eq]

theorem stop_fst_jet (ps : Player × PState) :
    (stopUnrelatedSounds ps).1.hasJetpack = ps.1.hasJetpack := by
  unfold stopUnrelatedSounds
  split_ifs <;> simp [stopJetpackSound_eq, stopPropellerSound_eq]

theorem stop_fst_spring (ps : Player × PState) :
    (stopUnrelatedSounds ps).1.hasSpringShoes = ps.1.hasSpringShoes := by
  unfold stopUnrelatedSounds
  split_ifs <;> simp [stopJetpackSound_eq, stopPropellerSound_eq]

theorem stop_fst_state (ps : Player × PState) :
    (stopUnrelatedSounds ps).1.currentPowerupState = ps.1.currentPowerupState := by
  unfold stopUnrelatedSounds
  split_ifs <;> simp [stopJetpackSound_eq, stopPropellerSound_eq]

theorem commit_state (ps : Player × PState) :
    (commitPowerupState ps).currentPowerupState = ps.2 := by
  unfold commitPowerupState
  split_ifs with h
  · rw [forceUpdateAnimation_state]
  · simp_all

theorem commit_hat (ps : Player × PState) :
    (commitPowerupState ps).hasPropellerHat = ps.1.hasPropellerHat := by
  unfold commitPowerupState
  split_ifs <;> simp [forceUpdateAnimation_hasPropellerHat]

theorem commit_jet (ps : Player × PState) :
    (commitPowerupState ps).hasJetpack = ps.1.hasJetpack := by
  unfold commitPowerupState
  split_ifs <;> simp [forceUpdateAnimation_hasJetpack]

theorem commit_spring (ps : Player × PState) :
    (commitPowerupState ps).hasSpringShoes = ps.1.hasSpringShoes := by
  unfold commitPowerupState
  split_ifs <;> simp [forceUpdateAnimation_hasSpringShoes]

theorem JNum.mul_nan (a : JNum) : JNum.mul a JNum.nan = JNum.nan := by
  cases a <;> rfl

theorem JNum.div_nan_left (b : JNum) : JNum.div JNum.nan b = JNum.nan := by
  cases b <;> rfl

theorem JNum.ltb_nan (a : JNum) : JNum.ltb a JNum.nan = false := by
  cases a <;> rfl

theorem JNum.sub_nan (a : JNum) : JNum.sub a JNum.nan = JNum.nan := by
  cases a <;> rfl

theorem JNum.nan_ltb (b : JNum) : JNum.ltb JNum.nan b = false := by
  cases b <;> rfl

theorem dieCalls_dead (n : ℕ) (p : Player) (h : p.isDead = true) :
    dieCalls n p = (p, 0) := by
  induction n with
  | zero => rfl
  | succ k ih => simp [dieCalls, Player.die, h, ih]

/-- C1 (claim as stated is false): with an unexpired propeller hat dominant
and a jetpack whose duration has elapsed (now = 50, jetpack start 0, duration
10), updatePowerupStates leaves the jetpack's active flag set even though
now - startTime > duration, so the flag is not cleared exactly on expiry. -/
theorem C1_counterexample :
    (50 : ℤ) - cHatJet.jetpackStartTime > cHatJet.jetpackDuration ∧
    (updatePowerupStates 50 cHatJet).hasJetpack = true := by
  decide

/-- C1 (amended): after updatePowerupStates, the current animation/movement
state is the unique one chosen by the fixed priority propeller hat > jetpack >
spring shoes among the buffs that are set and unexpired; a buff's active flag
is cleared on expiry (now - startTime > duration) only when its check is
reached — the propeller hat always, the jetpack only when the hat is not
dominant, and the spring shoes only when neither the hat nor the jetpack is
dominant. -/
theorem C1_powerup_dominance (now : ℤ) (p : Player) :
    (updatePowerupStates now p).currentPowerupState =
      (if p.hasPropellerHat = true ∧ ¬(now - p.propellerHatStartTime > p.propellerHatDuration)
       then PState.propellerhat
       else if p.hasJetpack = true ∧ ¬(now - p.jetpackStartTime > p.jetpackDuration)
       then PState.jetpack
       else if p.hasSpringShoes = true ∧ ¬(now - p.springShoesStartTime > p.springShoesDuration)
       then PState.springshoes
       else PState.normal) ∧
    ((updatePowerupStates now p).hasPropellerHat = true ↔
      p.hasPropellerHat = true ∧ ¬(now - p.propellerHatStartTime > p.propellerHatDuration)) ∧
    ((updatePowerupStates now p).hasJetpack = true ↔
      p.hasJetpack = true ∧
        ((p.hasPropellerHat = true ∧ ¬(now - p.propellerHatStartTime > p.propellerHatDuration)) ∨
          ¬(now - p.jetpackStartTime > p.jetpackDuration))) ∧
    ((updatePowerupStates now p).hasSpringShoes = true ↔
      p.hasSpringShoes = true ∧
        ((p.hasPropellerHat = true ∧ ¬(now - p.propellerHatStartTime > p.propellerHatDuration)) ∨
          (p.hasJetpack = true ∧ ¬(now - p.jetpackStartTime > p.jetpackDuration)) ∨
          ¬(now - p.springShoesStartTime > p.springShoesDuration))) := by
  unfold updatePowerupStates
  simp only [commit_state, commit_hat, commit_jet, commit_spring, stop_snd,
    stop_fst_hat, stop_fst_jet, stop_fst_spring,
    css_snd, css_fst_spring, css_fst_hat, css_fst_jet,
    cj_snd, cj_fst_jet, cj_fst_hat, cj_fst_spring, cj_fst_springStart, cj_fst_springDur,
    cps_snd, cps_fst_hat, cps_fst_jet, cps_fst_spring,
    cps_fst_jetStart, cps_fst_jetDur, cps_fst_springStart, cps_fst_springDur]
  by_cases hH : p.hasPropellerHat = true <;>
  by_cases hHe : now - p.propellerHatStartTime > p.propellerHatDuration <;>
  by_cases hJ : p.hasJetpack = true <;>
  by_cases hJe : now - p.jetpackStartTime > p.jetpackDuration <;>
  by_cases hS : p.hasSpringShoes = true <;>
  by_cases hSe : now - p.springShoesStartTime > p.springShoesDuration <;>
  simp_all

/-- C2: collectPowerup sets the collected buff's active flag and its start
time to the current time, and within the same call re-evaluates the dominant
state, so a player whose state agrees with the priority choice over its buff
flags before the call still agrees after it — no stale state is observable
after activation. -/
theorem C2_collect_atomic (now : ℤ) (t : PowerupType) (p : Player)
    (h : p.currentPowerupState = dominantOfFlags p) :
    buffFlag t (collectPowerup now t p) = true ∧
    buffStartTime t (collectPowerup now t p) = now ∧
    (collectPowerup now t p).currentPowerupState =
      dominantOfFlags (collectPowerup now t p) := by
  cases t <;>
  by_cases hH : p.hasPropellerHat = true <;>
  by_cases hJ : p.hasJetpack = true <;>
  by_cases hS : p.hasSpringShoes = true <;>
  simp_all [collectPowerup, buffFlag, buffStartTime, dominantOfFlags,
    apply_ite Player.currentPowerupState, apply_ite Player.hasPropellerHat,
    apply_ite Player.hasJetpack, apply_ite Player.hasSpringShoes,
    forceUpdateAnimation_state, forceUpdateAnimation_hasPropellerHat,
    forceUpdateAnimation_hasJetpack, forceUpdateAnimation_hasSpringShoes,
    forceUpdateAnimation_propStart, forceUpdateAnimation_jetStart,
    forceUpdateAnimation_springStart]

/-- Witness for C2: collecting a jetpack at time 5 on the consistent base
player sets the flag and start time and leaves the state consistent. -/
theorem C2_collect_atomic_witness :
    basePlayer.currentPowerupState = dominantOfFlags basePlayer ∧
    (buffFlag PowerupType.jetpack (collectPowerup 5 PowerupType.jetpack basePlayer) = true ∧
     buffStartTime PowerupType.jetpack (collectPowerup 5 PowerupType.jetpack basePlayer) = 5 ∧
     (collectPowerup 5 PowerupType.jetpack basePlayer).currentPowerupState =
       dominantOfFlags (collectPowerup 5 PowerupType.jetpack basePlayer)) :=
  ⟨by decide, C2_collect_atomic 5 PowerupType.jetpack basePlayer (by decide)⟩

/-- C3 (claim as stated is false): with one active platform at (80, 100), the
first placement attempt from cursor 220 with spacing 60 puts the candidate at
(80, 160), whose distance to the platform is exactly 60 (squared distance
3600); the candidate is accepted although its distance does not exceed 60. -/
theorem C3_counterexample :
    placeLoop 60 [c3Platform] (fun _ => 80) 0 10 220 = (160, some (80, 160)) ∧
    ¬(3600 < distSq 80 160 c3Platform.x c3Platform.y) := by
  have hov : overlapsAny 80 160 [c3Platform] = false := by
    norm_num [overlapsAny, c3Platform, distSq]
  constructor
  · simp only [placeLoop]
    norm_num [hov]
  · norm_num [c3Platform, distSq]

/-- C3 (amended): whenever the placement loop accepts a candidate (x, y), the
squared distance from (x, y) to every currently-active platform is at least
3600 (i.e. the Euclidean distance is at least 60 — candidates at exactly 60
are accepted), and x comes from a draw in [80, screenWidth - 80]. -/
theorem C3_acceptance (spacing W : ℚ) (plats : List Platform) (draws : ℕ → ℚ)
    (hd : ∀ n, 80 ≤ draws n ∧ draws n ≤ W - 80) :
    ∀ fuel attempt lastY ly x y,
      placeLoop spacing plats draws attempt fuel lastY = (ly, some (x, y)) →
      (∀ pl ∈ plats, pl.active = true → 3600 ≤ distSq x y pl.x pl.y) ∧
      80 ≤ x ∧ x ≤ W - 80 := by
  intro fuel
  induction fuel with
  | zero =>
      intro attempt lastY ly x y h
      simp [placeLoop] at h
  | succ n ih =>
      intro attempt lastY ly x y h
      simp only [placeLoop] at h
      by_cases hov : overlapsAny (draws attempt) (lastY - spacing) plats = true
      · rw [if_pos hov] at h
        exact ih (attempt + 1) (lastY - spacing) ly x y h
      · rw [if_neg hov] at h
        obtain ⟨h1, h2⟩ := Prod.mk.injEq .. ▸ h
        obtain ⟨hx, hy⟩ := Prod.mk.injEq .. ▸ Option.some.inj h2
        subst hx
        subst hy
        refine ⟨?_, (hd attempt).1, (hd attempt).2⟩
        intro pl hpl hact
        by_contra hlt
        push_neg at hlt
        exact hov (List.any_eq_true.mpr ⟨pl, hpl, by simp [hact, hlt]⟩)

/-- Witness for C3: with no platforms yet, the first candidate from cursor 500
with spacing 100 and constant draw 100 is accepted at (100, 400), trivially
clear of every active platform and inside [80, 320]. -/
theorem C3_acceptance_witness :
    (∀ pl ∈ ([] : List Platform), pl.active = true → 3600 ≤ distSq 100 400 pl.x pl.y) ∧
    (80 : ℚ) ≤ 100 ∧ (100 : ℚ) ≤ 400 - 80 :=
  C3_acceptance 100 400 [] (fun _ => 100) (fun _ => by norm_num)
    10 0 500 400 100 400 (by
      have hov : overlapsAny 100 400 ([] : List Platform) = false := by
        simp [overlapsAny]
      simp only [placeLoop]
      norm_num [hov])

/-- When every attempt's candidate overlaps an active platform, the placement
loop consumes all its fuel, moves the cursor down one spacing per attempt,
and accepts nothing. -/
theorem placeLoop_all_rejected (spacing : ℚ) (plats : List Platform) (draws : ℕ → ℚ) :
    ∀ fuel attempt lastY,
      (∀ i, i < fuel →
        overlapsAny (draws (attempt + i)) (lastY - ((i : ℚ) + 1) * spacing) plats = true) →
      placeLoop spacing plats draws attempt fuel lastY =
        (lastY - (fuel : ℚ) * spacing, none) := by
  intro fuel
  induction fuel with
  | zero =>
      intro attempt lastY _
      simp [placeLoop]
  | succ n ih =>
      intro attempt lastY h
      have h0 : overlapsAny (draws attempt) (lastY - spacing) plats = true := by
        simpa using h 0 (Nat.succ_pos n)
      have hrec : ∀ i, i < n →
          overlapsAny (draws (attempt + 1 + i))
            ((lastY - spacing) - ((i : ℚ) + 1) * spacing) plats = true := by
        intro i hi
        have hstep := h (i + 1) (Nat.succ_lt_succ hi)
        have hidx : attempt + (i + 1) = attempt + 1 + i := by omega
        rw [hidx] at hstep
        have hy : lastY - ((((i + 1 : ℕ) : ℚ)) + 1) * spacing =
            (lastY - spacing) - ((i : ℚ) + 1) * spacing := by
          push_cast
          ring
        rw [hy] at hstep
        exact hstep
      simp only [placeLoop]
      rw [if_pos h0, ih (attempt + 1) (lastY - spacing) hrec]
      simp only [Prod.mk.injEq, and_true]
      push_cast
      ring

/-- C4: when a generation request is triggered and all 10 placement attempts
are rejected, no platform, enemy, or power-up is created that tick, the
cursor lastPlatformY has decreased by exactly 10 times the platform spacing,
and a later call re-evaluates the trigger lastPlatformY > cameraTop - 200
from the new cursor (in particular it does nothing when the new cursor no
longer satisfies it). -/
theorem C4_all_rejected (spacing : ℚ) (spawnChance : ℕ) (cameraTop : ℚ)
    (d : GenDraws) (s : Scene)
    (htrig : s.lastPlatformY > cameraTop - 200)
    (hrej : ∀ i, i < 10 →
      overlapsAny (d.xs i) (s.lastPlatformY - ((i : ℚ) + 1) * spacing) s.platforms = true) :
    (generateNewPlatforms spacing spawnChance cameraTop d s).platforms = s.platforms ∧
    (generateNewPlatforms spacing spawnChance cameraTop d s).enemies = s.enemies ∧
    (generateNewPlatforms spacing spawnChance cameraTop d s).powerups = s.powerups ∧
    (generateNewPlatforms spacing spawnChance cameraTop d s).lastPlatformY =
      s.lastPlatformY - 10 * spacing ∧
    (∀ ct2 : ℚ, ∀ d2 : GenDraws, ¬(s.lastPlatformY - 10 * spacing > ct2 - 200) →
      generateNewPlatforms spacing spawnChance ct2 d2
          (generateNewPlatforms spacing spawnChance cameraTop d s) =
        generateNewPlatforms spacing spawnChance cameraTop d s) := by
  have hloop := placeLoop_all_rejected spacing s.platforms d.xs 10 0 s.lastPlatformY
    (fun i hi => by simpa using hrej i hi)
  push_cast at hloop
  have heq : generateNewPlatforms spacing spawnChance cameraTop d s =
      { s with lastPlatformY := s.lastPlatformY - 10 * spacing } := by
    simp only [generateNewPlatforms]
    rw [if_pos htrig, hloop]
  refine ⟨by rw [heq], by rw [heq], by rw [heq], by rw [heq], ?_⟩
  intro ct2 d2 hno
  rw [heq]
  simp [generateNewPlatforms, hno]

/-- Witness for C4: the concrete scene with cursor 1000, spacing 100, camera
top 600, and ten platforms sitting exactly on the ten candidate positions —
all attempts are rejected, nothing is created, and the cursor drops to 0. -/
theorem C4_all_rejected_witness :
    (generateNewPlatforms 100 20 600 c4Draws c4Scene).platforms = c4Scene.platforms ∧
    (generateNewPlatforms 100 20 600 c4Draws c4Scene).enemies = c4Scene.enemies ∧
    (generateNewPlatforms 100 20 600 c4Draws c4Scene).powerups = c4Scene.powerups ∧
    (generateNewPlatforms 100 20 600 c4Draws c4Scene).lastPlatformY =
      c4Scene.lastPlatformY - 10 * 100 := by
  have htrig : c4Scene.lastPlatformY > 600 - 200 := by norm_num [c4Scene]
  have hrej : ∀ i, i < 10 →
      overlapsAny (c4Draws.xs i) (c4Scene.lastPlatformY - ((i : ℚ) + 1) * 100)
        c4Scene.platforms = true := by
    intro i hi
    interval_cases i <;>
      norm_num [c4Draws, c4Scene, c4Platforms, overlapsAny, distSq]
  have h := C4_all_rejected 100 20 600 c4Draws c4Scene htrig hrej
  exact ⟨h.1, h.2.1, h.2.2.1, h.2.2.2.1⟩

theorem applyScoreEvent_score (s : Scene) (e : ScoreEvent) :
    s.score ≤ (applyScoreEvent s e).score := by
  cases e <;> simp [applyScoreEvent, updateScore]

theorem applyScoreEvent_highestY (s : Scene) (e : ScoreEvent) :
    (applyScoreEvent s e).highestY = s.highestY := by
  cases e <;> rfl

theorem foldlScoreEvents (evs : List ScoreEvent) :
    ∀ s : Scene, s.score ≤ (evs.foldl applyScoreEvent s).score ∧
      (evs.foldl applyScoreEvent s).highestY = s.highestY := by
  induction evs with
  | nil => intro s; simp
  | cons e rest ih =>
      intro s
      rw [List.foldl_cons]
      exact ⟨le_trans (applyScoreEvent_score s e) (ih (applyScoreEvent s e)).1,
        by rw [(ih (applyScoreEvent s e)).2, applyScoreEvent_highestY]⟩

theorem updateHeight_mono (screenH : ℚ) (scoreMult : ℤ) (hm : 0 ≤ scoreMult)
    (playerY : ℚ) (s : Scene) :
    s.score ≤ (updateHeight screenH scoreMult playerY s).score ∧
    s.highestY ≤ (updateHeight screenH scoreMult playerY s).highestY := by
  simp only [updateHeight, updateScore]
  split_ifs with h
  · refine ⟨?_, ?_⟩
    · show s.score ≤ s.score + scoreMult
      omega
    · exact le_of_lt h
  · exact ⟨le_refl _, le_refl _⟩

theorem gameTick_mono (screenH : ℚ) (scoreMult : ℤ) (hm : 0 ≤ scoreMult)
    (t : ℚ × List ScoreEvent) (s : Scene) :
    s.highestY ≤ (gameTick screenH scoreMult t s).highestY ∧
    s.score ≤ (gameTick screenH scoreMult t s).score := by
  unfold gameTick
  have h1 := updateHeight_mono screenH scoreMult hm t.1 s
  have h2 := foldlScoreEvents t.2 (updateHeight screenH scoreMult t.1 s)
  exact ⟨by rw [h2.2]; exact h1.2, le_trans h1.1 h2.1⟩

/-- C5: over any sequence of ticks the derived height counter highestY is
non-decreasing (it records the maximum derived height reached, even when the
player's y later increases by falling), and the score is non-decreasing:
every updateScore call adds a non-negative constant (100, 150, 200, or the
non-negative configured height multiplier). -/
theorem C5_monotone (screenH : ℚ) (scoreMult : ℤ) (hm : 0 ≤ scoreMult)
    (ticks : List (ℚ × List ScoreEvent)) :
    ∀ s : Scene, s.highestY ≤ (runTicks screenH scoreMult ticks s).highestY ∧
      s.score ≤ (runTicks screenH scoreMult ticks s).score := by
  induction ticks with
  | nil =>
      intro s
      exact ⟨le_refl _, le_refl _⟩
  | cons t rest ih =>
      intro s
      have hstep := gameTick_mono screenH scoreMult hm t s
      have hrest := ih (gameTick screenH scoreMult t s)
      simp only [runTicks]
      exact ⟨le_trans hstep.1 hrest.1, le_trans hstep.2 hrest.2⟩

/-- Witness for C5: a three-tick run (climb, score a stomp, then fall back
down) leaves both counters at least where they started. -/
theorem C5_monotone_witness :
    c5Scene.highestY ≤
      (runTicks 650 10 [(100, [ScoreEvent.stomp]), (300, []), (500, [])] c5Scene).highestY ∧
    c5Scene.score ≤
      (runTicks 650 10 [(100, [ScoreEvent.stomp]), (300, []), (500, [])] c5Scene).score :=
  C5_monotone 650 10 (by norm_num) [(100, [ScoreEvent.stomp]), (300, []), (500, [])] c5Scene

/-- C6: the landing handler fires exactly when the player's vertical velocity
is downward (vy > 0) and the player is above the platform (y < platform.y);
when it fires the vertical velocity is reset to the negative jump impulse
(times the spring-shoes multiplier when that buff is active), which is
negative; otherwise the player is untouched. -/
theorem C6_landing (p : Player) (pl : Platform)
    (hj : 0 < p.jumpPower)
    (hm : 0 < (if p.hasSpringShoes = true then p.springShoesMultiplier else 1)) :
    ((p.vy > 0 ∧ p.y < pl.y) →
      (playerPlatformOverlapHandler p pl).vy =
        -p.jumpPower * (if p.hasSpringShoes = true then p.springShoesMultiplier else 1) ∧
      (playerPlatformOverlapHandler p pl).vy < 0) ∧
    (¬(p.vy > 0 ∧ p.y < pl.y) → playerPlatformOverlapHandler p pl = p) := by
  constructor
  · intro h
    have he : (playerPlatformOverlapHandler p pl).vy =
        -p.jumpPower * (if p.hasSpringShoes = true then p.springShoesMultiplier else 1) := by
      unfold playerPlatformOverlapHandler Platform.onPlayerLand Player.jump
      rw [if_pos h]
    exact ⟨he, by rw [he]; exact mul_neg_of_neg_of_pos (neg_lt_zero.mpr hj) hm⟩
  · intro h
    unfold playerPlatformOverlapHandler
    rw [if_neg h]

/-- Witness for C6: end-to-end scenario 1 — player at y = 100 falling with
vy = +50 over a platform at y = 150 lands and gets vy = -550 (< 0). -/
theorem C6_landing_witness :
    (playerPlatformOverlapHandler scenario1Player ⟨200, 150, true⟩).vy = -550 ∧
    (playerPlatformOverlapHandler scenario1Player ⟨200, 150, true⟩).vy < 0 := by
  have h := (C6_landing scenario1Player ⟨200, 150, true⟩
    (by norm_num [scenario1Player, basePlayer])
    (by norm_num [scenario1Player, basePlayer])).1
    (by norm_num [scenario1Player, basePlayer])
  exact ⟨by rw [h.1]; norm_num [scenario1Player, basePlayer], h.2⟩

/-- C7 (claim as stated is false): a bullet hitting an enemy with 2 hit points
registers the hit (health drops to 1) yet the bullet is NOT destroyed and no
score is awarded, contradicting "the bullet is destroyed — even when the hit
is non-lethal". -/
theorem C7_counterexample :
    (bulletEnemyOverlapHandler ⟨0, true⟩ ⟨0, 0, 2⟩ 0).2.1.health = 1 ∧
    (bulletEnemyOverlapHandler ⟨0, true⟩ ⟨0, 0, 2⟩ 0).1.active = true ∧
    (bulletEnemyOverlapHandler ⟨0, true⟩ ⟨0, 0, 2⟩ 0).2.2 = 0 := by
  decide

/-- C7 (amended): the bullet is destroyed exactly when the registered hit
defeats the enemy, and on defeat the score increases by exactly 150; in
particular a bullet striking an enemy with 1 remaining hit point defeats it,
destroys the bullet, and adds 150 to the score, while a non-lethal registered
hit leaves the bullet and score unchanged. -/
theorem C7_bullet_kill (b : Bullet) (e : Enemy) (score : ℤ) :
    (e.health = 1 →
      bulletEnemyOverlapHandler b e score =
        ({ b with active := false }, { e with health := 0 }, score + 150)) ∧
    (2 ≤ e.health →
      bulletEnemyOverlapHandler b e score =
        (b, { e with health := e.health - 1 }, score)) := by
  constructor
  · intro h
    simp [bulletEnemyOverlapHandler, Enemy.hitByBullet, h]
  · intro h
    have h0 : ¬(e.health = 0) := by omega
    have h1 : ¬(e.health - 1 = 0) := by omega
    simp [bulletEnemyOverlapHandler, Enemy.hitByBullet, h0, h1]

/-- Witness for C7: end-to-end scenario 3 at concrete inputs — a bullet
striking a 1-hit-point enemy defeats it, destroys the bullet, and adds 150. -/
theorem C7_bullet_kill_witness :
    bulletEnemyOverlapHandler ⟨0, true⟩ ⟨0, 0, 1⟩ 0 = (⟨0, false⟩, ⟨0, 0, 0⟩, 150) := by
  simpa using (C7_bullet_kill ⟨0, true⟩ ⟨0, 0, 1⟩ 0).1 rfl

/-- C8: the sweep keeps a platform/enemy/power-up exactly when its y does not
exceed cameraBottom + 300, and keeps a bullet exactly when it lies in the
two-sided window [cameraTop - 100, cameraBottom + 300]; entities inside their
windows are never destroyed by the sweep. -/
theorem C8_sweep (scrollY camH : ℚ) (s : Scene) :
    (∀ pl : Platform,
       pl ∈ (cleanupOffScreenObjects scrollY camH s).platforms ↔
         pl ∈ s.platforms ∧ pl.y ≤ scrollY + camH + 300) ∧
    (∀ e : Enemy,
       e ∈ (cleanupOffScreenObjects scrollY camH s).enemies ↔
         e ∈ s.enemies ∧ e.y ≤ scrollY + camH + 300) ∧
    (∀ pw : Powerup,
       pw ∈ (cleanupOffScreenObjects scrollY camH s).powerups ↔
         pw ∈ s.powerups ∧ pw.y ≤ scrollY + camH + 300) ∧
    (∀ b : Bullet,
       b ∈ (cleanupOffScreenObjects scrollY camH s).bullets ↔
         b ∈ s.bullets ∧ scrollY - 100 ≤ b.y ∧ b.y ≤ scrollY + camH + 300) := by
  refine ⟨?_, ?_, ?_, ?_⟩ <;> intro a <;>
    simp [cleanupOffScreenObjects, List.mem_filter, not_lt]

/-- C9: player death is a one-way idempotent transition — the first die() call
on a live player sets isDead, zeroes velocity, and launches the game-over
transition; any die() call on a dead player changes nothing and launches
nothing; across any positive number of calls the transition fires exactly
once and isDead stays true. -/
theorem C9_die_once (p : Player) (h : p.isDead = false) (n : ℕ) :
    ((Player.die p).1.isDead = true ∧ (Player.die p).1.vx = 0 ∧
      (Player.die p).1.vy = 0 ∧ (Player.die p).2 = true) ∧
    (∀ q : Player, q.isDead = true → Player.die q = (q, false)) ∧
    (dieCalls (n + 1) p).1 = (Player.die p).1 ∧
    (dieCalls (n + 1) p).2 = 1 := by
  have hdie : Player.die p = ({ p with isDead := true, vx := 0, vy := 0 }, true) := by
    simp [Player.die, h]
  have hdead : (Player.die p).1.isDead = true := by simp [hdie]
  refine ⟨by simp [hdie], ?_, ?_, ?_⟩
  · intro q hq
    simp [Player.die, hq]
  · simp only [dieCalls]
    rw [dieCalls_dead n (Player.die p).1 hdead]
  · simp only [dieCalls]
    rw [dieCalls_dead n (Player.die p).1 hdead, hdie]
    simp

/-- Witness for C9: four consecutive die() calls on a live player launch the
game-over transition exactly once, and the player stays dead. -/
theorem C9_die_once_witness :
    (dieCalls 4 basePlayer).2 = 1 ∧ (Player.die basePlayer).1.isDead = true :=
  ⟨(C9_die_once basePlayer rfl 3).2.2.2, (C9_die_once basePlayer rfl 3).1.1⟩

/-- C10 (the code contradicts the claimed clamp): handleMovement never changes
the player's x at all. The property `this.characterScale` read in the clamp is
never assigned anywhere in the repository, so `halfWidth` is NaN, both boundary
comparisons are false, and the clamp branches are dead code: the player's x is
not confined to [halfWidth, screenWidth - halfWidth]. -/
theorem C10_clamp_dead (screenWidth : ℚ) (c : Cursors) (p : Player) :
    (handleMovement screenWidth c p).x = p.x := by
  unfold handleMovement
  simp only [characterScaleJS, JNum.mul_nan, JNum.div_nan_left, JNum.ltb_nan,
    JNum.sub_nan, JNum.nan_ltb, Bool.false_eq_true, if_false, playJetpackSound_eq]
  split_ifs <;> simp

end Doodle
